import Mathlib

/-!
Shallow embedding of `src/main.rs` of the oggify tool: a CLI that takes a
Spotify track URL, fetches and decrypts the audio, rewrites the vorbis
comment header, transcodes to mp3 with ffmpeg, and removes its temporary
files.  Pure data transformations (URL matching, tag building, format
selection, header stripping) are translated directly; the effectful main
function is translated as a step-sequenced function over an environment
that records the outcomes of the external collaborators (session connect,
audio-key request, stream read, decrypt, transcoder spawn and exit).
-/

namespace Oggify

/-! ## URL matching (main.rs lines 89-99)

The code builds the regex `open\.spotify\.com/track/([[:alnum:]]+)` and
uses `is_match` followed by `captures(...).get(1)`.  For this particular
regex, `is_match` succeeds exactly when a capture exists: the literal
occurs at some position and at least one ASCII alphanumeric character
follows; the capture is the maximal alphanumeric run after the leftmost
such occurrence.  `findCapture` scans every start position from the left,
exactly as the regex engine does. -/

/-- The literal part of the track-URL regex. -/
def urlLiteral : List Char := "open.spotify.com/track/".toList

/-- Match a literal at the head of the input; on success return the rest. -/
def dropLiteral : List Char → List Char → Option (List Char)
  | [], rest => some rest
  | _ :: _, [] => none
  | l :: ls, c :: cs => if c = l then dropLiteral ls cs else none

/-- Leftmost match of the track-URL regex: try the literal at every start
position; where it matches, require a nonempty ASCII alphanumeric run and
capture it (the regex class `[[:alnum:]]` with `+`). -/
def findCapture : List Char → Option (List Char)
  | [] => none
  | c :: cs =>
    match dropLiteral urlLiteral (c :: cs) with
    | some rest =>
      let captured := rest.takeWhile Char.isAlphanum
      if captured.isEmpty then findCapture cs else some captured
    | none => findCapture cs

/-- The track id captured from a URL, when the URL matches the supported
pattern (main.rs lines 89-99: `is_match` is true exactly when this is
`some`, and the `captures` call then extracts this same capture). -/
def spotifyCapture (s : String) : Option String :=
  (findCapture s.toList).map fun cs => String.mk cs

/-! ## Track metadata (librespot metadata consumed by main.rs) -/

/-- A release date as the metadata library exposes it; `main.rs` line 238
reads only the `year` projection. -/
structure Date where
  year : Int
  month : Int
  day : Int

/-- Album metadata: the fields main.rs reads. -/
structure Album where
  name : String
  date : Date

/-- The audio file formats of the metadata file map that main.rs names,
plus the other variants of the upstream enum it could contain. -/
inductive AudioFileFormat where
  | OGG_VORBIS_96
  | OGG_VORBIS_160
  | OGG_VORBIS_320
  | MP3_256
  | MP3_320
  | MP3_160
  | MP3_96
  | AAC_24
  | AAC_48
  | FLAC_FLAC
deriving DecidableEq, Repr

/-- Track metadata: the fields main.rs reads.  `artists` is the list of
artist names in metadata order (line 158); `files` is the format map,
modelled as a partial function from format to file id. -/
structure Track where
  artists : List String
  name : String
  id : String
  number : Nat
  album : Album
  files : AudioFileFormat → Option Nat

/-! ## Comment header construction (main.rs lines 227-244)

The oggvorbismeta crate is an external collaborator; its `CommentHeader`
is a vendor string plus an ordered list of (name, value) tag entries,
`set_vendor` replaces the vendor and `add_tag_single` appends one entry. -/

/-- Vendor string plus ordered multi-valued tag list. -/
structure CommentHeader where
  vendor : String
  tags : List (String × String)
deriving DecidableEq, Repr

/-- CommentHeader::new(): empty vendor, no tags. -/
def CommentHeader.new : CommentHeader := { vendor := "", tags := [] }

/-- set_vendor replaces the vendor string. -/
def CommentHeader.set_vendor (h : CommentHeader) (v : String) : CommentHeader :=
  { h with vendor := v }

/-- add_tag_single appends one (name, value) entry at the end. -/
def CommentHeader.add_tag_single (h : CommentHeader) (n v : String) : CommentHeader :=
  { h with tags := h.tags ++ [(n, v)] }

/-- The exact sequence of calls of main.rs lines 227-238: new, set_vendor
with the constant "Ogg", one add_tag_single "artist" per artist name in
order, then "album", "tracknumber" (decimal of track.number), "title",
and "date" (decimal of track.album.date.year). -/
def buildNewComment (track : Track) : CommentHeader :=
  let h0 := CommentHeader.new.set_vendor "Ogg"
  let h1 := track.artists.foldl (fun h a => h.add_tag_single "artist" a) h0
  let h2 := h1.add_tag_single "album" track.album.name
  let h3 := h2.add_tag_single "tracknumber" (toString track.number)
  let h4 := h3.add_tag_single "title" track.name
  h4.add_tag_single "date" (toString track.album.date.year)

/-! ## Audio format selection (main.rs lines 177-182) -/

/-- The chained `get(OGG_VORBIS_320).or(get(OGG_VORBIS_160))
.or(get(OGG_VORBIS_96))` of main.rs lines 177-182 (Option::or keeps the
first some). -/
def selectFile (files : AudioFileFormat → Option Nat) : Option Nat :=
  match files AudioFileFormat.OGG_VORBIS_320 with
  | some f => some f
  | none =>
    match files AudioFileFormat.OGG_VORBIS_160 with
    | some f => some f
    | none => files AudioFileFormat.OGG_VORBIS_96

/-- The preference-order selection as the spec words it: the first format
of the list that is present in the file map. -/
def firstAvailable : List AudioFileFormat → (AudioFileFormat → Option Nat) → Option Nat
  | [], _ => none
  | f :: rest, files =>
    match files f with
    | some x => some x
    | none => firstAvailable rest files

/-! ## Header strip (main.rs line 217)

`std::fs::write(&fname, &decrypted_buffer[0xa7..])`: the slice panics when
the buffer is shorter than 0xa7 bytes, otherwise the bytes from offset
0xa7 on are written. -/

/-- The bytes written at main.rs line 217: none models the panic of an
out-of-range slice. -/
def writtenTrackBytes (decrypted : List Nat) : Option (List Nat) :=
  if decrypted.length < 0xa7 then none else some (decrypted.drop 0xa7)

/-! ## CLI argument group (main.rs lines 56-67)

The clap group declares two mutually exclusive options: `--url URL` and
`--urls FILE` (a file of URLs, one per line, `-` for stdin).  Exactly one
of the two is present in a well-formed invocation. -/

/-- The parsed argument group: at most one of the two fields is some. -/
structure Group where
  url : Option String
  urls : Option String

/-! ## Output paths (main.rs lines 192, 224, 260, 287, 291) -/

/-- OUTPUT_DIR constant of main.rs line 71. -/
def OUTPUT_DIR : String := "output"

/-- The untagged decrypted container path (line 192). -/
def oggPath (t : Track) : String := OUTPUT_DIR ++ "/" ++ t.id ++ ".ogg"

/-- The tagged intermediate container path (lines 224, 264, 287). -/
def taggedPath (t : Track) : String := OUTPUT_DIR ++ "/" ++ t.id ++ "-tagged.ogg"

/-- The mp3 path built at line 260 from the artist names and track name. -/
def outputMp3 (t : Track) : String :=
  OUTPUT_DIR ++ "/" ++ String.intercalate ", " t.artists ++ " - " ++ t.name ++ ".mp3"

/-- The output path handed to the transcoder subprocess (line 273): the
very same string as the path later reported as final. -/
def transcoderOutputArg (t : Track) : String := outputMp3 t

/-- The path the final log line reports as the finished output (line 294). -/
def reportedFinalPath (t : Track) : String := outputMp3 t

/-! ## The main pipeline as a step-sequenced function

`Env` records the data main.rs obtains from its collaborators; `pipeline`
replays the control flow of `main` over it, returning the process outcome
and the list of files of the output directory that exist when the process
ends.  Effectful steps the claims do not touch (cache and credential
setup, metadata download, the intermediate file reads and the comment
rewrite) are modelled as succeeding; the files tracked are exactly the
ones main.rs itself creates or removes under OUTPUT_DIR, and the
transcoder output is counted only when the transcoder exits
successfully. -/

/-- Outcomes of the process: a panic aborts with a nonzero exit status, an
early return and a completed run end the process normally (exit 0). -/
inductive Outcome where
  | panicked (msg : String)
  | returnedEarly (msg : String)
  | completed (outputFile : String)
deriving DecidableEq, Repr

/-- The process exit code of each outcome: a Rust panic aborts the process
with the nonzero status 101; returning from main exits with 0. -/
def exitCodeOf : Outcome → Nat
  | .panicked _ => 101
  | .returnedEarly _ => 0
  | .completed _ => 0

/-- The collaborator results main.rs consumes, in pipeline order. -/
structure Env where
  group : Group
  connectResult : Except String Unit
  track : Track
  keyResult : Except String Nat
  readOk : Bool
  decryptOk : Bool
  decrypted : List Nat
  transcodeSpawnOk : Bool
  transcodeExitOk : Bool

/-- The key step of main.rs lines 184-190: a successful request yields the
key; on an error the code logs a warning (Unable to load key, continuing
without decryption) and continues with no key. -/
def keyAfterRequest (r : Except String Nat) : Option Nat :=
  match r with
  | .ok k => some k
  | .error _ => none

/-- The pipeline from the point after the key request (main.rs lines
192-295).  The key value is only fed to AudioDecrypt as data and never
branches the control flow, which is why the parameter is unused here.
Returns the outcome plus the OUTPUT_DIR files present at process end:
the two intermediate files are created at lines 217 and 250-251, removed
at lines 286-292 only after the transcoder asserts success. -/
def pipelineAfterKey (env : Env) (_key : Option Nat) : Outcome × List String :=
  if env.readOk = false then (.panicked "Cannot read file stream", [])
  else if env.decryptOk = false then (.panicked "Cannot decrypt stream", [])
  else if env.decrypted.length < 0xa7 then
    (.panicked "byte index out of range in decrypted buffer", [])
  else if env.transcodeSpawnOk = false then
    (.panicked "Could not run helper program",
     [oggPath env.track, taggedPath env.track])
  else if env.transcodeExitOk = false then
    (.panicked "Helper script returned an error",
     [oggPath env.track, taggedPath env.track])
  else (.completed (outputMp3 env.track), [outputMp3 env.track])

/-- The whole of main (main.rs lines 74-296) over an environment: unwrap
of the url option (line 82), the URL pattern check (lines 89-99), session
connect (lines 135-141), format selection (lines 177-182), then the key
step and the tail of the pipeline. -/
def pipeline (env : Env) : Outcome × List String :=
  match env.group.url with
  | none => (.panicked "called Option::unwrap on a None value", [])
  | some url =>
    match spotifyCapture url with
    | none => (.returnedEarly "Only Spotify track URLs are supported currently.", [])
    | some _trackId =>
      match env.connectResult with
      | .error e => (.returnedEarly ("Error connecting: " ++ e), [])
      | .ok _ =>
        match selectFile env.track.files with
        | none => (.panicked "Could not find a OGG_VORBIS format for the track.", [])
        | some _fid => pipelineAfterKey env (keyAfterRequest env.keyResult)

/-- The process outcome of a run. -/
def run (env : Env) : Outcome := (pipeline env).1

/-- The OUTPUT_DIR files present when the process ends. -/
def filesAfter (env : Env) : List String := (pipeline env).2

/-! ## Concrete sample data for witnesses and counterexamples -/

/-- A file map holding only the 320 kbps ogg format. -/
def sampleFiles : AudioFileFormat → Option Nat :=
  fun f => match f with
  | AudioFileFormat.OGG_VORBIS_320 => some 11
  | _ => none

/-- A concrete track. -/
def sampleTrack : Track :=
  { artists := ["Artist A", "Artist B"]
    name := "Song"
    id := "4uLU6hMCjMI75M1A2tKUQC"
    number := 3
    album := { name := "Album", date := { year := 2021, month := 5, day := 4 } }
    files := sampleFiles }

/-- A matching track URL. -/
def goodUrl : String := "https://open.spotify.com/track/4uLU6hMCjMI75M1A2tKUQC?si=abc"

/-- A fully successful environment. -/
def baseEnv : Env :=
  { group := { url := some goodUrl, urls := none }
    connectResult := Except.ok ()
    track := sampleTrack
    keyResult := Except.ok 99
    readOk := true
    decryptOk := true
    decrypted := List.replicate 200 0
    transcodeSpawnOk := true
    transcodeExitOk := true }

/-- The environment of an invocation that passed only `--urls`. -/
def envUrlsOnly : Env :=
  { baseEnv with group := { url := none, urls := some "tracks.txt" } }

/-- The environment of a non-matching input URL. -/
def envBadUrl : Env :=
  { baseEnv with group := { url := some "http://example.com/xyz", urls := none } }

/-- The environment of a failed session connect. -/
def envConnFail : Env :=
  { baseEnv with connectResult := Except.error "bad credentials" }

/-- The environment of a failed audio-key request. -/
def envKeyFail : Env :=
  { baseEnv with keyResult := Except.error "channel error" }

/-- The environment of a transcoder that exits with a nonzero status. -/
def envTransFail : Env :=
  { baseEnv with transcodeExitOk := false }

/-- The environment of a transcoder that could not be spawned. -/
def envSpawnFail : Env :=
  { baseEnv with transcodeSpawnOk := false }

/-! ## Theorems -/

set_option maxRecDepth 10000

/-- Folding add_tag_single over the artist names appends one artist entry
per name, in order, and leaves the vendor unchanged. -/
lemma foldl_add_artist (artists : List String) (h : CommentHeader) :
    (artists.foldl (fun acc a => acc.add_tag_single "artist" a) h).vendor = h.vendor ∧
    (artists.foldl (fun acc a => acc.add_tag_single "artist" a) h).tags =
      h.tags ++ artists.map (fun a => ("artist", a)) := by
  induction artists generalizing h with
  | nil => simp
  | cons a rest ih =>
    simpa [CommentHeader.add_tag_single] using ih (h.add_tag_single "artist" a)

/-- C1: the new CommentHeader holds exactly one artist entry per artist
name in metadata order, then one album, one tracknumber (decimal of the
track number), one title, and one date entry holding only the year of the
album release date; the vendor string is the constant "Ogg" regardless of
the input track. -/
theorem c1_tag_field_mapping (t : Track) :
    (buildNewComment t).vendor = "Ogg" ∧
    (buildNewComment t).tags =
      t.artists.map (fun a => ("artist", a)) ++
        [("album", t.album.name),
         ("tracknumber", toString t.number),
         ("title", t.name),
         ("date", toString t.album.date.year)] := by
  have := foldl_add_artist t.artists (CommentHeader.new.set_vendor "Ogg")
  unfold buildNewComment
  simp only [CommentHeader.add_tag_single, CommentHeader.set_vendor, CommentHeader.new] at *
  refine ⟨this.1, ?_⟩
  rw [this.2]
  simp

/-- C10: the format chosen at main.rs lines 177-182 is the first format
present of the preference list OGG_VORBIS_320, OGG_VORBIS_160,
OGG_VORBIS_96, and no file id is found exactly when none of the three is
in the file map (in which case the expect at line 182 aborts the run). -/
theorem c10_format_preference_order (files : AudioFileFormat → Option Nat) :
    selectFile files =
      firstAvailable
        [AudioFileFormat.OGG_VORBIS_320, AudioFileFormat.OGG_VORBIS_160,
         AudioFileFormat.OGG_VORBIS_96] files ∧
    (selectFile files = none ↔
      files AudioFileFormat.OGG_VORBIS_320 = none ∧
      files AudioFileFormat.OGG_VORBIS_160 = none ∧
      files AudioFileFormat.OGG_VORBIS_96 = none) := by
  rcases h1 : files AudioFileFormat.OGG_VORBIS_320 with _ | f1 <;>
    rcases h2 : files AudioFileFormat.OGG_VORBIS_160 with _ | f2 <;>
      rcases h3 : files AudioFileFormat.OGG_VORBIS_96 with _ | f3 <;>
        simp [selectFile, firstAvailable, h1, h2, h3]

/-- C2: when the decrypted payload is long enough, the bytes written at
main.rs line 217 are exactly the payload with its first 0xa7 bytes
removed: the written part is the drop at offset 0xa7, the stripped part
and the written part together are the whole payload, and the written
length is the payload length minus 0xa7.  (The offset itself appears in
the source only as the inline literal 0xa7, not as a named or
configurable constant.) -/
theorem c2_header_strip (buf : List Nat) (h : 0xa7 ≤ buf.length) :
    writtenTrackBytes buf = some (buf.drop 0xa7) ∧
    buf.take 0xa7 ++ buf.drop 0xa7 = buf ∧
    (buf.drop 0xa7).length = buf.length - 0xa7 := by
  refine ⟨?_, List.take_append_drop _ _, List.length_drop _ _⟩
  unfold writtenTrackBytes
  rw [if_neg (Nat.not_lt.mpr h)]

/-- C2 witness: the strip theorem at a concrete 200-byte payload. -/
theorem c2_header_strip_witness :
    writtenTrackBytes (List.replicate 200 0) = some ((List.replicate 200 0).drop 0xa7) ∧
    (List.replicate 200 0).take 0xa7 ++ (List.replicate 200 0).drop 0xa7 =
      List.replicate 200 0 ∧
    ((List.replicate 200 0).drop 0xa7).length = (List.replicate 200 0).length - 0xa7 :=
  c2_header_strip (List.replicate 200 0) (by decide)

/-- C3: an invocation that supplies only the urls file selector leaves
group.url empty, so the unwrap at main.rs line 82 panics: the process
aborts with a nonzero exit before any line of the file is read, instead
of processing the file as a batch of single-URL runs. -/
theorem c3_urls_option_unwrap_panics :
    run envUrlsOnly = Outcome.panicked "called Option::unwrap on a None value" ∧
    exitCodeOf (run envUrlsOnly) ≠ 0 :=
  ⟨rfl, by decide⟩

/-- C4 counterexample: an environment whose audio-key request fails is
not stopped with an error: the run continues and completes successfully
with exit code 0, refuting the claim that a KeyUnavailable fetch error is
fatal to the operation. -/
theorem c4_counterexample :
    envKeyFail.keyResult = Except.error "channel error" ∧
    run envKeyFail = Outcome.completed (outputMp3 sampleTrack) ∧
    exitCodeOf (run envKeyFail) = 0 :=
  ⟨rfl, rfl, rfl⟩

/-- C4 amended: a failed audio-key request is not fatal; main.rs lines
184-190 log a warning and continue with no key, and the rest of the run
is exactly the run with an available key, the key value never branching
the control flow. -/
theorem c4_key_failure_continues (env : Env) (e : String)
    (h : env.keyResult = Except.error e) :
    keyAfterRequest env.keyResult = none ∧
    pipeline env = pipeline { env with keyResult := Except.ok 0 } := by
  constructor
  · rw [h]
    rfl
  · obtain ⟨g, conn, tr, k, r, dok, d, sok, eok⟩ := env
    rfl

/-- C4 witness: the amended theorem at the concrete failing-key
environment. -/
theorem c4_key_failure_continues_witness :
    keyAfterRequest envKeyFail.keyResult = none ∧
    pipeline envKeyFail = pipeline { envKeyFail with keyResult := Except.ok 0 } :=
  c4_key_failure_continues envKeyFail "channel error" rfl

/-- C5 counterexample: a non-matching input URL is an unrecoverable
failure of the first stage, yet the process returns normally with exit
code 0, refuting the claim that the exit code is nonzero on any
unrecoverable stage failure. -/
theorem c5_counterexample :
    run envBadUrl = Outcome.returnedEarly "Only Spotify track URLs are supported currently." ∧
    exitCodeOf (run envBadUrl) = 0 :=
  ⟨rfl, rfl⟩

/-- C5 amended: on a URL-pattern mismatch and on a failed session connect
the process prints a message and returns normally, so the exit code is 0
despite the failure; only panicking stages abort with a nonzero code. -/
theorem c5_exit_codes :
    (∀ env u, (Env.group env).url = some u →
      spotifyCapture u = none →
      run env = Outcome.returnedEarly "Only Spotify track URLs are supported currently." ∧
      exitCodeOf (run env) = 0) ∧
    (∀ env u c e, (Env.group env).url = some u →
      spotifyCapture u = some c →
      Env.connectResult env = Except.error e →
      run env = Outcome.returnedEarly ("Error connecting: " ++ e) ∧
      exitCodeOf (run env) = 0) := by
  constructor
  · intro env u h1 h2
    simp [run, pipeline, h1, h2, exitCodeOf]
  · intro env u c e h1 h2 h3
    simp [run, pipeline, h1, h2, h3, exitCodeOf]

/-- C5 witness: the amended theorem at the concrete failed-connect
environment. -/
theorem c5_exit_codes_witness :
    run envConnFail = Outcome.returnedEarly ("Error connecting: " ++ "bad credentials") ∧
    exitCodeOf (run envConnFail) = 0 :=
  c5_exit_codes.2 envConnFail goodUrl "4uLU6hMCjMI75M1A2tKUQC" "bad credentials" rfl rfl rfl

/-- C6 counterexample: when the transcoder exits with a nonzero status
(a terminal failure), both temporary files are still present at process
end, refuting the claim that they are removed on terminal failure. -/
theorem c6_counterexample :
    run envTransFail = Outcome.panicked "Helper script returned an error" ∧
    filesAfter envTransFail =
      ["output/4uLU6hMCjMI75M1A2tKUQC.ogg", "output/4uLU6hMCjMI75M1A2tKUQC-tagged.ogg"] :=
  ⟨rfl, rfl⟩

/-- C6 amended: the two temporary files are removed only after a
successful transcode (only the final mp3 remains); on a transcode exit
failure the run panics and both temporary files remain. -/
theorem c6_cleanup_only_on_success (env : Env) (u c : String) (fid : Nat)
    (h1 : (Env.group env).url = some u) (h2 : spotifyCapture u = some c)
    (h3 : Env.connectResult env = Except.ok ())
    (h4 : selectFile (Track.files (Env.track env)) = some fid)
    (h5 : Env.readOk env = true) (h6 : Env.decryptOk env = true)
    (h7 : 0xa7 ≤ (Env.decrypted env).length)
    (h8 : Env.transcodeSpawnOk env = true) :
    (Env.transcodeExitOk env = true →
      run env = Outcome.completed (outputMp3 env.track) ∧
      filesAfter env = [outputMp3 env.track]) ∧
    (Env.transcodeExitOk env = false →
      run env = Outcome.panicked "Helper script returned an error" ∧
      filesAfter env = [oggPath env.track, taggedPath env.track]) := by
  have hlt : ¬ (Env.decrypted env).length < 0xa7 := Nat.not_lt.mpr h7
  constructor <;> intro h9 <;>
    simp [run, filesAfter, pipeline, pipelineAfterKey, h1, h2, h3, h4, h5, h6, hlt, h8, h9]

/-- C6 witness: the amended theorem at the fully successful environment. -/
theorem c6_cleanup_witness :
    (Env.transcodeExitOk baseEnv = true →
      run baseEnv = Outcome.completed (outputMp3 baseEnv.track) ∧
      filesAfter baseEnv = [outputMp3 baseEnv.track]) ∧
    (Env.transcodeExitOk baseEnv = false →
      run baseEnv = Outcome.panicked "Helper script returned an error" ∧
      filesAfter baseEnv = [oggPath baseEnv.track, taggedPath baseEnv.track]) :=
  c6_cleanup_only_on_success baseEnv goodUrl "4uLU6hMCjMI75M1A2tKUQC" 11
    rfl rfl rfl rfl rfl rfl (by decide) rfl

/-- C7 counterexample: when the transcoder cannot be spawned, the run
fails yet the two intermediate container files remain in the
caller-visible output directory, and the path the transcoder writes its
output to is the final reported path itself, not a distinct staging
path. -/
theorem c7_counterexample :
    run envSpawnFail = Outcome.panicked "Could not run helper program" ∧
    filesAfter envSpawnFail =
      ["output/4uLU6hMCjMI75M1A2tKUQC.ogg", "output/4uLU6hMCjMI75M1A2tKUQC-tagged.ogg"] ∧
    transcoderOutputArg sampleTrack = reportedFinalPath sampleTrack :=
  ⟨rfl, rfl, rfl⟩

/-- C7 amended: on a transcoder spawn failure the run panics and the
intermediate files written under OUTPUT_DIR remain caller-visible, and
the transcoder output argument is the final path itself, so no in-
progress output goes to a distinct path that is exposed only after
success. -/
theorem c7_no_staged_output (env : Env) (u c : String) (fid : Nat)
    (h1 : (Env.group env).url = some u) (h2 : spotifyCapture u = some c)
    (h3 : Env.connectResult env = Except.ok ())
    (h4 : selectFile (Track.files (Env.track env)) = some fid)
    (h5 : Env.readOk env = true) (h6 : Env.decryptOk env = true)
    (h7 : 0xa7 ≤ (Env.decrypted env).length)
    (h8 : Env.transcodeSpawnOk env = false) :
    run env = Outcome.panicked "Could not run helper program" ∧
    filesAfter env = [oggPath env.track, taggedPath env.track] ∧
    transcoderOutputArg env.track = reportedFinalPath env.track := by
  have hlt : ¬ (Env.decrypted env).length < 0xa7 := Nat.not_lt.mpr h7
  refine ⟨?_, ?_, rfl⟩ <;>
    simp [run, filesAfter, pipeline, pipelineAfterKey, h1, h2, h3, h4, h5, h6, hlt, h8]

/-- C7 witness: the amended theorem at the concrete spawn-failure
environment. -/
theorem c7_no_staged_output_witness :
    run envSpawnFail = Outcome.panicked "Could not run helper program" ∧
    filesAfter envSpawnFail = [oggPath envSpawnFail.track, taggedPath envSpawnFail.track] ∧
    transcoderOutputArg envSpawnFail.track = reportedFinalPath envSpawnFail.track :=
  c7_no_staged_output envSpawnFail goodUrl "4uLU6hMCjMI75M1A2tKUQC" 11
    rfl rfl rfl rfl rfl rfl (by decide) rfl

/-- C8: a nonzero transcoder exit status is fatal: the assert at main.rs
lines 278-284 panics, the process exit code is nonzero, and the run never
reports success. -/
theorem c8_transcode_failure_fatal (env : Env) (u c : String) (fid : Nat)
    (h1 : (Env.group env).url = some u) (h2 : spotifyCapture u = some c)
    (h3 : Env.connectResult env = Except.ok ())
    (h4 : selectFile (Track.files (Env.track env)) = some fid)
    (h5 : Env.readOk env = true) (h6 : Env.decryptOk env = true)
    (h7 : 0xa7 ≤ (Env.decrypted env).length)
    (h8 : Env.transcodeSpawnOk env = true)
    (h9 : Env.transcodeExitOk env = false) :
    run env = Outcome.panicked "Helper script returned an error" ∧
    exitCodeOf (run env) ≠ 0 ∧
    ∀ f, run env ≠ Outcome.completed f := by
  have hlt : ¬ (Env.decrypted env).length < 0xa7 := Nat.not_lt.mpr h7
  have hr : run env = Outcome.panicked "Helper script returned an error" := by
    simp [run, pipeline, pipelineAfterKey, h1, h2, h3, h4, h5, h6, hlt, h8, h9]
  refine ⟨hr, ?_, ?_⟩
  · rw [hr]; simp [exitCodeOf]
  · intro f
    rw [hr]
    simp

/-- C8 witness: the theorem at the concrete failing-transcoder
environment. -/
theorem c8_transcode_failure_fatal_witness :
    run envTransFail = Outcome.panicked "Helper script returned an error" ∧
    exitCodeOf (run envTransFail) ≠ 0 ∧
    ∀ f, run envTransFail ≠ Outcome.completed f :=
  c8_transcode_failure_fatal envTransFail goodUrl "4uLU6hMCjMI75M1A2tKUQC" 11
    rfl rfl rfl rfl rfl rfl (by decide) rfl rfl

/-- C9: an input URL that does not match the supported track-URL pattern
makes main.rs lines 89-93 print a user error and return: the run ends in
the early return, never panics, and writes no file. -/
theorem c9_bad_url_graceful (env : Env) (u : String)
    (h1 : (Env.group env).url = some u) (h2 : spotifyCapture u = none) :
    run env = Outcome.returnedEarly "Only Spotify track URLs are supported currently." ∧
    (∀ m, run env ≠ Outcome.panicked m) ∧
    filesAfter env = [] := by
  have hr : run env = Outcome.returnedEarly "Only Spotify track URLs are supported currently." := by
    simp [run, pipeline, h1, h2]
  refine ⟨hr, ?_, ?_⟩
  · intro m
    rw [hr]
    simp
  · simp [filesAfter, pipeline, h1, h2]

/-- C9 witness: the theorem at the concrete non-matching URL. -/
theorem c9_bad_url_graceful_witness :
    run envBadUrl = Outcome.returnedEarly "Only Spotify track URLs are supported currently." ∧
    (∀ m, run envBadUrl ≠ Outcome.panicked m) ∧
    filesAfter envBadUrl = [] :=
  c9_bad_url_graceful envBadUrl "http://example.com/xyz" rfl rfl

end Oggify
